import Mathlib

/-!
Shallow embedding of the HomeWizard-P1-to-Shelly emulator
(src/shelly_emulator.py and src/app/main.py).

JSON numbers are modelled as exact rationals; Python float literals such
as 0.6, 1.02 and 0.98 become the rationals 3/5, 51/50 and 49/50.  The
upstream data endpoint of the HomeWizard gateway returns a flat JSON
object of scalars, so object and array values are modelled one level
deep (scalars inside containers), which is all the code paths touch.
-/

namespace HWShelly

/-- A scalar JSON value. -/
inductive JLeaf where
  | null
  | bool (b : Bool)
  | num (q : ℚ)
  | str (s : String)
  deriving DecidableEq

/-- A parsed JSON value, as returned by resp.json in the source.  Objects
model Python dicts produced by the JSON parser (keys are unique, so a
first-match lookup agrees with dict access).  The upstream data endpoint
returns a flat object of scalars, so containers hold scalars. -/
inductive JVal where
  | leaf (l : JLeaf)
  | arr (elems : List JLeaf)
  | obj (kvs : List (String × JLeaf))
  deriving DecidableEq

/-- Shorthand for a scalar null. -/
def JVal.null : JVal := .leaf .null

/-- Shorthand for a scalar boolean. -/
def JVal.bool (b : Bool) : JVal := .leaf (.bool b)

/-- Shorthand for a scalar number. -/
def JVal.num (q : ℚ) : JVal := .leaf (.num q)

/-- Shorthand for a scalar string. -/
def JVal.str (s : String) : JVal := .leaf (.str s)

/-- Python truthiness of a scalar. -/
def JLeaf.truthy : JLeaf → Bool
  | .null => false
  | .bool b => b
  | .num q => decide (q ≠ 0)
  | .str s => decide (s ≠ "")

/-- Python truthiness of a JSON value, used by the sources in
`if not hw_data` and `total_power / 3 if total_power else 0`. -/
def JVal.truthy : JVal → Bool
  | .leaf l => l.truthy
  | .arr elems => decide (elems ≠ [])
  | .obj kvs => decide (kvs ≠ [])

/-- Numeric coercion used by Python arithmetic on a scalar: numbers are
themselves, booleans coerce to 0 and 1, everything else raises
TypeError (`none`). -/
def JLeaf.asNum : JLeaf → Option ℚ
  | .num q => some q
  | .bool b => some (if b then 1 else 0)
  | _ => none

/-- Numeric coercion used by Python arithmetic. -/
def JVal.asNum : JVal → Option ℚ
  | .leaf l => l.asNum
  | _ => none

/-- dict.get with a default, as used on the parsed upstream payload. -/
def jget : List (String × JLeaf) → String → JVal → JVal
  | [], _, d => d
  | (k, v) :: kvs, key, d => if k = key then .leaf v else jget kvs key d

/-! ### Numeric helpers modelling Python built-ins -/

/-- Python int() applied to a rational: truncation toward zero. -/
def ratTrunc (q : ℚ) : ℤ := if 0 ≤ q then ⌊q⌋ else ⌈q⌉

/-- Python round() to an integer: round half to even. -/
def roundHalfEven (q : ℚ) : ℤ :=
  let f : ℤ := ⌊q⌋
  if q - (f : ℚ) < 1/2 then f
  else if 1/2 < q - (f : ℚ) then f + 1
  else if f % 2 = 0 then f else f + 1

/-- Python round(x, n): round half to even at n decimal digits. -/
def roundTo (n : ℕ) (q : ℚ) : ℚ := (roundHalfEven (q * 10 ^ n) : ℚ) / 10 ^ n

/-! ### src/app/main.py: shared state, poller and endpoints

The FastAPI variant keeps one global dict `state`; its leaves are JSON
values written either verbatim from the payload or as computed numbers.
-/

/-- The wifi_sta sub-dict of the shared state (src/app/main.py lines 19, 62-65). -/
structure WifiSta where
  connected : JVal
  ssid : JVal
  rssi : JVal
  deriving DecidableEq

/-- The em:0 sub-dict of the shared state (src/app/main.py lines 20-36). -/
structure Em0 where
  id : JVal
  a_voltage : JVal
  b_voltage : JVal
  c_voltage : JVal
  a_act_power : JVal
  b_act_power : JVal
  c_act_power : JVal
  total_act_power : JVal
  a_current : JVal
  b_current : JVal
  c_current : JVal
  total_current : JVal
  total_energy : JVal
  total_returned : JVal
  total_power_factor : JVal
  deriving DecidableEq

/-- The gas:0 sub-dict of the shared state (src/app/main.py lines 37-41). -/
structure Gas0 where
  id : JVal
  total_m3 : JVal
  timestamp : JVal
  deriving DecidableEq

/-- The whole shared state dict of src/app/main.py. -/
structure AppState where
  wifi_sta : WifiSta
  em0 : Em0
  gas0 : Gas0
  deriving DecidableEq

/-- The initial value of the shared state (src/app/main.py lines 18-42). -/
def initState : AppState :=
  { wifi_sta := { connected := .bool true, ssid := .str "emu", rssi := .num (-50) }
    em0 :=
      { id := .num 0
        a_voltage := .num 230, b_voltage := .num 230, c_voltage := .num 230
        a_act_power := .num 0, b_act_power := .num 0, c_act_power := .num 0
        total_act_power := .num 0
        a_current := .num 0, b_current := .num 0, c_current := .num 0
        total_current := .num 0
        total_energy := .num 0, total_returned := .num 0
        total_power_factor := .num 1 }
    gas0 := { id := .num 0, total_m3 := .num 0, timestamp := .num 0 } }

/-- One execution of the try-block body of the poller after resp.json
succeeded (src/app/main.py lines 59-87), given the parsed body `hw` and
the state before the iteration.  Returns the state after the iteration
together with `true` when the body ran to completion and `false` when a
statement raised (the exception is caught at line 89, so the mutations
already performed persist — Python mutates the global dict in place,
statement by statement). -/
def pollBody (hw : JVal) (s : AppState) : AppState × Bool :=
  match hw with
  | .obj kvs =>
    -- state["wifi_sta"]["ssid"] = hw.get("wifi_ssid", "emu")
    let s := { s with wifi_sta.ssid := jget kvs "wifi_ssid" (.str "emu") }
    -- strength = hw.get("wifi_strength", 100)
    let strength := jget kvs "wifi_strength" (.num 100)
    match strength.asNum with
    | none => (s, false)    -- TypeError in the rssi arithmetic
    | some st =>
      -- state["wifi_sta"]["rssi"] = -30 - int((100 - strength) * 0.6)
      let s := { s with wifi_sta.rssi := .num (((-30 : ℤ) - ratTrunc ((100 - st) * (3/5)) : ℤ) : ℚ) }
      -- total_power = hw.get("active_power_w", 0)
      let tp := jget kvs "active_power_w" (.num 0)
      -- per_phase = total_power / 3 if total_power else 0
      let perPhase? : Option ℚ := if tp.truthy then tp.asNum.map (fun q => q / 3) else some 0
      match perPhase? with
      | none => (s, false)  -- TypeError dividing a non-number
      | some pp =>
        let s := { s with em0.total_act_power := tp }
        let s := { s with em0.a_act_power := .num pp }
        let s := { s with em0.b_act_power := .num pp }
        let s := { s with em0.c_act_power := .num pp }
        -- state["em:0"]["a_current"] = state["em:0"]["a_act_power"] / 230
        match s.em0.a_act_power.asNum with
        | none => (s, false)
        | some pa =>
          let s := { s with em0.a_current := .num (pa / 230) }
          match s.em0.b_act_power.asNum with
          | none => (s, false)
          | some pb =>
            let s := { s with em0.b_current := .num (pb / 230) }
            match s.em0.c_act_power.asNum with
            | none => (s, false)
            | some pc =>
              let s := { s with em0.c_current := .num (pc / 230) }
              -- state["em:0"]["total_current"] = total_power / 230
              match tp.asNum with
              | none => (s, false)
              | some tq =>
                let s := { s with em0.total_current := .num (tq / 230) }
                let s := { s with em0.total_energy := jget kvs "total_power_import_kwh" (.num 0) }
                let s := { s with em0.total_returned := jget kvs "total_power_export_kwh" (.num 0) }
                let s := { s with gas0.total_m3 := jget kvs "total_gas_m3" (.num 0) }
                let s := { s with gas0.timestamp := jget kvs "gas_timestamp" (.num 0) }
                (s, true)
  | _ => (s, false)         -- hw.get raises AttributeError before any mutation

/-- The outcome of one `client.get` plus `resp.json` in the poller:
either an exception (connection error, timeout, or a body that fails
JSON parsing) or an HTTP response with its status code and parsed body. -/
inductive FetchResult where
  | exn
  | ok (status : ℕ) (body : JVal)
  deriving DecidableEq

/-- One iteration of the poller loop of src/app/main.py (lines 56-91)
acting on the shared state: an exception anywhere in the try block is
caught and the loop sleeps; the status code of the response is never
inspected. -/
def pollStep (r : FetchResult) (s : AppState) : AppState :=
  match r with
  | .exn => s
  | .ok _ body => (pollBody body s).1

/-- The first entry of the emeters list in the /status response of
src/app/main.py (lines 99-105): it alone carries the energy totals. -/
structure EmeterMain0 where
  power : JVal
  voltage : JVal
  current : JVal
  total : JVal
  returned : JVal
  deriving DecidableEq

/-- The second and third entries of the emeters list in the /status
response of src/app/main.py (lines 106-115). -/
structure EmeterMainN where
  power : JVal
  voltage : JVal
  current : JVal
  deriving DecidableEq

/-- The /status response document of src/app/main.py (lines 94-119). -/
structure MainStatus where
  wifi_sta : WifiSta
  emeter0 : EmeterMain0
  emeter1 : EmeterMainN
  emeter2 : EmeterMainN
  total_power : JVal
  gas : Gas0
  deriving DecidableEq

/-- GET /status of src/app/main.py: a pure projection of the shared state. -/
def get_status (s : AppState) : MainStatus :=
  { wifi_sta := s.wifi_sta
    emeter0 :=
      { power := s.em0.a_act_power, voltage := s.em0.a_voltage
        current := s.em0.a_current, total := s.em0.total_energy
        returned := s.em0.total_returned }
    emeter1 :=
      { power := s.em0.b_act_power, voltage := s.em0.b_voltage
        current := s.em0.b_current }
    emeter2 :=
      { power := s.em0.c_act_power, voltage := s.em0.c_voltage
        current := s.em0.c_current }
    total_power := s.em0.total_act_power
    gas := s.gas0 }

/-- The /rpc/Shelly.GetStatus response of src/app/main.py (lines 121-127). -/
structure MainRpcStatus where
  wifi_sta : WifiSta
  em0 : Em0
  gas0 : Gas0
  deriving DecidableEq

/-- GET /rpc/Shelly.GetStatus of src/app/main.py: returns the state
sub-dicts wholesale. -/
def rpc_Shelly_GetStatus (s : AppState) : MainRpcStatus :=
  { wifi_sta := s.wifi_sta, em0 := s.em0, gas0 := s.gas0 }

/-- POLL_INTERVAL of src/app/main.py with its default value. -/
def POLL_INTERVAL : ℚ := 2

/-! ### src/shelly_emulator.py: client, converters and endpoints -/

/-- The HomeWizardClient of src/shelly_emulator.py, reduced to the only
field ever read elsewhere: the cached parsed payload. -/
structure HWClient where
  cached : Option JVal
  deriving DecidableEq

/-- The outcome of the HTTP GET inside HomeWizardClient.fetch_data:
either an exception before a response exists (connection error or
timeout), or a response with a status code and, when the body parses as
JSON, its parsed value (`none` models a body on which resp.json raises). -/
inductive HTTPOutcome where
  | exn
  | resp (status : ℕ) (body? : Option JVal)
  deriving DecidableEq

/-- HomeWizardClient.fetch_data (src/shelly_emulator.py lines 30-46):
on a 200 response with a parseable body the cache is replaced and the
data returned; on every other outcome the exception or error is logged
and the previous cache is returned unchanged. -/
def fetch_data (o : HTTPOutcome) (c : HWClient) : HWClient × Option JVal :=
  match o with
  | .exn => (c, c.cached)
  | .resp status body? =>
    if status = 200 then
      match body? with
      | some d => ({ cached := some d }, some d)
      | none => (c, c.cached)
    else (c, c.cached)

/-- Whether an HTTP outcome is one of the failure kinds of the claim:
exception (network error or timeout), non-2xx status, or malformed JSON. -/
def HTTPOutcome.isFailure : HTTPOutcome → Bool
  | .exn => true
  | .resp status body? => decide (status ≠ 200) || body?.isNone

/-- HomeWizardClient.get_cached_data (src/shelly_emulator.py lines 48-50). -/
def get_cached_data (c : HWClient) : Option JVal := c.cached

/-- The emeter record of the Shelly Pro 3EM status, as built by
ShellyEmulator.convert_hw_to_shelly (src/shelly_emulator.py lines 76-108)
and by _get_empty_status (lines 112-125). -/
structure EMStatus where
  id : ℕ
  source : String
  a_current : ℚ
  a_voltage : ℚ
  a_act_power : ℚ
  a_aprt_power : ℚ
  a_pf : ℚ
  a_freq : ℚ
  b_current : ℚ
  b_voltage : ℚ
  b_act_power : ℚ
  b_aprt_power : ℚ
  b_pf : ℚ
  b_freq : ℚ
  c_current : ℚ
  c_voltage : ℚ
  c_act_power : ℚ
  c_aprt_power : ℚ
  c_pf : ℚ
  c_freq : ℚ
  n_current : ℚ
  total_current : ℚ
  total_act_power : ℚ
  total_aprt_power : ℚ
  deriving DecidableEq

/-- ShellyEmulator._get_empty_status (src/shelly_emulator.py lines 110-125). -/
def _get_empty_status : EMStatus :=
  { id := 0, source := "init"
    a_current := 0, a_voltage := 0, a_act_power := 0
    a_aprt_power := 0, a_pf := 0, a_freq := 50
    b_current := 0, b_voltage := 0, b_act_power := 0
    b_aprt_power := 0, b_pf := 0, b_freq := 0
    c_current := 0, c_voltage := 0, c_act_power := 0
    c_aprt_power := 0, c_pf := 0, c_freq := 0
    n_current := 0
    total_current := 0, total_act_power := 0, total_aprt_power := 0 }

/-- The raw power, current and voltage read from the payload in
convert_hw_to_shelly (src/shelly_emulator.py lines 68-70); `none` when
a non-numeric value makes a later round() call raise TypeError, or when
a truthy non-dict payload makes hw_data.get raise AttributeError. -/
def convVals (hw : JVal) : Option (ℚ × ℚ × ℚ) :=
  match hw with
  | .obj kvs =>
    match (jget kvs "active_power_w" (.num 0)).asNum,
          (jget kvs "active_current_a" (.num 0)).asNum,
          (jget kvs "active_voltage_v" (.num 230)).asNum with
    | some tp, some tc, some v => some (tp, tc, v)
    | _, _, _ => none
  | _ => none

/-- The response dict literal of convert_hw_to_shelly
(src/shelly_emulator.py lines 76-108), given power_a, current_a and
voltage. -/
def mkEMStatus (pa ca v : ℚ) : EMStatus :=
  { id := 0, source := "init"
    a_current := roundTo 3 ca, a_voltage := roundTo 2 v
    a_act_power := roundTo 2 pa, a_aprt_power := roundTo 2 (pa * (51/50))
    a_pf := 49/50, a_freq := 50
    b_current := 0, b_voltage := 0, b_act_power := 0
    b_aprt_power := 0, b_pf := 0, b_freq := 0
    c_current := 0, c_voltage := 0, c_act_power := 0
    c_aprt_power := 0, c_pf := 0, c_freq := 0
    n_current := 0
    total_current := roundTo 3 ca
    total_act_power := roundTo 2 pa
    total_aprt_power := roundTo 2 (pa * (51/50)) }

/-- ShellyEmulator.convert_hw_to_shelly (src/shelly_emulator.py lines
61-108): a falsy or absent payload yields the empty status; otherwise
the per-phase dict is built with all measured power on phase A; `none`
models the handler raising. -/
def convert_hw_to_shelly (hw? : Option JVal) : Option EMStatus :=
  match hw? with
  | none => some _get_empty_status
  | some hw =>
    if hw.truthy then (convVals hw).map (fun t => mkEMStatus t.1 t.2.1 t.2.2)
    else some _get_empty_status

/-- GET /emeter/0 of src/shelly_emulator.py (lines 195-199): converts
the cached payload. -/
def handle_emeter (c : HWClient) : Option EMStatus :=
  convert_hw_to_shelly (get_cached_data c)

/-- The Gen2 RPC status document of ShellyEmulator.handle_rpc_status
(src/shelly_emulator.py lines 214-238). -/
structure Gen2Status where
  id : ℕ
  a_current : ℚ
  a_voltage : ℚ
  a_act_power : ℚ
  a_aprt_power : ℚ
  a_pf : ℚ
  a_freq : ℚ
  b_current : ℚ
  b_voltage : ℚ
  b_act_power : ℚ
  b_aprt_power : ℚ
  b_pf : ℚ
  b_freq : ℚ
  c_current : ℚ
  c_voltage : ℚ
  c_act_power : ℚ
  c_aprt_power : ℚ
  c_pf : ℚ
  c_freq : ℚ
  n_current : ℚ
  total_current : ℚ
  total_act_power : ℚ
  total_aprt_power : ℚ
  deriving DecidableEq

/-- The three locals of handle_rpc_status (src/shelly_emulator.py lines
205-212): total_power, voltage and current, all zero when the cache is
absent or falsy, otherwise read with defaults 0 / 230 / 0; `none` when a
non-numeric value makes a round() call raise, or a truthy non-dict cache
makes .get raise. -/
def rpcVals (hw? : Option JVal) : Option (ℚ × ℚ × ℚ) :=
  match hw? with
  | none => some (0, 0, 0)
  | some hw =>
    if hw.truthy then
      match hw with
      | .obj kvs =>
        match (jget kvs "active_power_w" (.num 0)).asNum,
              (jget kvs "active_voltage_v" (.num 230)).asNum,
              (jget kvs "active_current_a" (.num 0)).asNum with
        | some tp, some v, some cur => some (tp, v, cur)
        | _, _, _ => none
      | _ => none
    else some (0, 0, 0)

/-- The response dict literal of handle_rpc_status (src/shelly_emulator.py
lines 214-238), given total_power, voltage and current. -/
def mkGen2Status (tp v cur : ℚ) : Gen2Status :=
  { id := 0
    a_current := roundTo 3 cur, a_voltage := roundTo 2 v
    a_act_power := roundTo 2 tp, a_aprt_power := roundTo 2 (tp * (51/50))
    a_pf := 49/50, a_freq := 50
    b_current := 0, b_voltage := 0, b_act_power := 0
    b_aprt_power := 0, b_pf := 0, b_freq := 0
    c_current := 0, c_voltage := 0, c_act_power := 0
    c_aprt_power := 0, c_pf := 0, c_freq := 0
    n_current := 0
    total_current := roundTo 3 cur
    total_act_power := roundTo 2 tp
    total_aprt_power := roundTo 2 (tp * (51/50)) }

/-- GET /rpc/EM.GetStatus of src/shelly_emulator.py (lines 201-240),
as a function of the cached payload. -/
def handle_rpc_status (hw? : Option JVal) : Option Gen2Status :=
  (rpcVals hw?).map (fun t => mkGen2Status t.1 t.2.1 t.2.2)

/-- The /shelly device-info document (src/shelly_emulator.py lines 158-168). -/
structure ShellyInfoDoc where
  type : String
  mac : String
  auth : Bool
  fw : String
  discoverable : Bool
  longid : ℕ
  num_outputs : ℕ
  num_meters : ℕ
  profile : String
  deriving DecidableEq

/-- GET /shelly of src/shelly_emulator.py (lines 156-169); the handler
takes the emulator state but reads none of it. -/
def handle_shelly (_c : HWClient) : ShellyInfoDoc :=
  { type := "SPEM-003CEBEU", mac := "AABBCCDDEEFF", auth := false
    fw := "1.0.0-emulator", discoverable := true, longid := 1
    num_outputs := 0, num_meters := 3, profile := "triphase" }

/-- The device sub-dict of the /settings document
(src/shelly_emulator.py lines 174-180). -/
structure SettingsDevice where
  type : String
  mac : String
  hostname : String
  num_outputs : ℕ
  num_meters : ℕ
  deriving DecidableEq

/-- The /settings document (src/shelly_emulator.py lines 173-192); the
nested one-field sub-dicts are flattened into prefixed field names. -/
structure SettingsDoc where
  device : SettingsDevice
  wifi_ap_enabled : Bool
  wifi_sta_enabled : Bool
  wifi_sta_ssid : String
  wifi_sta_ipv4_method : String
  mqtt_enable : Bool
  sntp_server : String
  login_enabled : Bool
  pin_code : String
  name : String
  fw : String
  discoverable : Bool
  build_id : String
  build_timestamp : String
  cloud_enabled : Bool
  deriving DecidableEq

/-- GET /settings of src/shelly_emulator.py (lines 171-193); the handler
takes the emulator state but reads none of it. -/
def handle_settings (_c : HWClient) : SettingsDoc :=
  { device :=
      { type := "SPEM-003CEBEU", mac := "AABBCCDDEEFF"
        hostname := "shellyproem3-emulator", num_outputs := 0, num_meters := 3 }
    wifi_ap_enabled := false
    wifi_sta_enabled := true, wifi_sta_ssid := "EmulatedNetwork"
    wifi_sta_ipv4_method := "dhcp"
    mqtt_enable := false, sntp_server := "time.google.com"
    login_enabled := false, pin_code := ""
    name := "Shelly Pro 3EM Emulator", fw := "1.0.0-emulator"
    discoverable := true
    build_id := "emulator", build_timestamp := "2025-01-01T00:00:00Z"
    cloud_enabled := false }

/-! ### The two poll loops -/

/-- The result of one loop iteration: either the loop continues with a
new state after sleeping, or it stops.  Neither source loop has a
break, return or uncaught raise, so the step functions below only ever
build `next`. -/
inductive LoopResult (σ : Type) where
  | next (s : σ) (sleepSecs : ℚ)
  | stop (s : σ)
  deriving DecidableEq

/-- Whether a loop iteration continues. -/
def LoopResult.isNext {σ : Type} : LoopResult σ → Bool
  | .next _ _ => true
  | .stop _ => false

/-- What happens during one iteration of poll_homewizard
(src/shelly_emulator.py lines 245-251): either fetch_data runs with some
HTTP outcome (it catches its own exceptions), or something in the try
block raises (for example task cancellation), reaching the except arm. -/
inductive IterEvent where
  | normal (o : HTTPOutcome)
  | unexpectedExn
  deriving DecidableEq

/-- One iteration of poll_homewizard (src/shelly_emulator.py lines
243-251): on the normal path the cache is updated by fetch_data and the
loop sleeps 1 second; on an exception the error is logged and the loop
sleeps 5 seconds.  Both paths continue. -/
def poll_homewizard_step (e : IterEvent) (c : HWClient) : LoopResult HWClient :=
  match e with
  | .normal o => .next (fetch_data o c).1 1
  | .unexpectedExn => .next c 5

/-- One iteration of the poller loop of src/app/main.py (lines 56-91):
the try/except absorbs every failure and the loop always sleeps
POLL_INTERVAL and continues. -/
def poller_iteration (r : FetchResult) (s : AppState) : LoopResult AppState :=
  .next (pollStep r s) POLL_INTERVAL

/-- Folding a sequence of fetch outcomes through fetch_data, as the
poll loop does to the client cache. -/
def runFetches (os : List HTTPOutcome) (c : HWClient) : HWClient :=
  os.foldl (fun c o => (fetch_data o c).1) c

/-- Whether a JSON value is an object (a Python dict). -/
def JVal.isObj : JVal → Bool
  | .obj _ => true
  | _ => false

/-! ### Helper lemmas for evaluating the rounding and truncation models -/

lemma roundHalfEven_of_floor {q : ℚ} {f : ℤ} (hf : ⌊q⌋ = f) :
    roundHalfEven q =
      if q - (f : ℚ) < 1/2 then f
      else if 1/2 < q - (f : ℚ) then f + 1
      else if f % 2 = 0 then f else f + 1 := by
  rw [roundHalfEven, hf]

lemma roundHalfEven_intCast (z : ℤ) : roundHalfEven (z : ℚ) = z := by
  rw [roundHalfEven_of_floor (Int.floor_intCast z)]
  norm_num

lemma roundTo_intCast (n : ℕ) (z : ℤ) : roundTo n (z : ℚ) = z := by
  have h : (z : ℚ) * 10 ^ n = ((z * 10 ^ n : ℤ) : ℚ) := by push_cast; ring
  have hp : (10 : ℚ) ^ n ≠ 0 := by positivity
  rw [roundTo, h, roundHalfEven_intCast]
  push_cast
  field_simp

lemma roundTo_zero (n : ℕ) : roundTo n 0 = 0 := by
  have h := roundTo_intCast n 0
  simpa using h

lemma ratTrunc_of_nonneg {q : ℚ} (h : 0 ≤ q) : ratTrunc q = ⌊q⌋ := if_pos h

lemma ratTrunc_nonneg {q : ℚ} (h : 0 ≤ q) : 0 ≤ ratTrunc q := by
  rw [ratTrunc_of_nonneg h]
  exact Int.floor_nonneg.mpr h

/-- fetch_data on any failed outcome returns the client and its cache
unchanged. -/
lemma fetch_data_failure {o : HTTPOutcome} (c : HWClient)
    (h : o.isFailure = true) : fetch_data o c = (c, c.cached) := by
  cases o with
  | exn => rfl
  | resp status body? =>
    rcases h6 : decide (status = 200) with _ | _
    · have hs : ¬status = 200 := of_decide_eq_false h6
      simp [fetch_data, hs]
    · have hs : status = 200 := of_decide_eq_true h6
      subst hs
      simp only [HTTPOutcome.isFailure, decide_not] at h
      rcases body? with _ | d
      · simp [fetch_data]
      · simp at h

/-- Any sequence of failed outcomes leaves the client unchanged. -/
lemma runFetches_failures (os : List HTTPOutcome) (c : HWClient)
    (h : ∀ o ∈ os, o.isFailure = true) : runFetches os c = c := by
  induction os generalizing c with
  | nil => rfl
  | cons o os ih =>
    have h1 : fetch_data o c = (c, c.cached) :=
      fetch_data_failure c (h o (by simp))
    have : runFetches (o :: os) c = runFetches os (fetch_data o c).1 := rfl
    rw [this, h1]
    exact ih c (fun o ho => h o (by simp [ho]))

/-! ### Claim theorems -/

/-- C1 counterexample: the poller of src/app/main.py never inspects the
HTTP status code, so after a successful fetch (total power 690) a 404
response whose body parses as a JSON object is processed as a success
and overwrites the snapshot with defaults: /status then reports total
power 0 instead of the last good 690. -/
theorem c1_counterexample :
    (get_status (pollStep (.ok 200 (.obj [("active_power_w", .num 690), ("wifi_ssid", .str "home")])) initState)).total_power = .num 690 ∧
    (get_status (pollStep (.ok 404 (.obj [("detail", .str "Not Found")]))
      (pollStep (.ok 200 (.obj [("active_power_w", .num 690), ("wifi_ssid", .str "home")])) initState))).total_power = .num 0 ∧
    ((.num 0 : JVal) ≠ .num 690) :=
  ⟨rfl, rfl, by decide⟩

/-- C1 amended: in src/shelly_emulator.py every failed fetch (exception,
non-200 status, or unparseable body) leaves the cache unchanged, so any
run of consecutive failures leaves the cache and the emeter and RPC
responses exactly as after the last success; in src/app/main.py a fetch
that raises (network error, timeout, unparseable body) leaves the state
and the /status document unchanged.  (A non-2xx response with a JSON
object body is the exception shown in the counterexample.) -/
theorem c1_last_good_preserved :
    (∀ (c : HWClient) (o : HTTPOutcome), o.isFailure = true → fetch_data o c = (c, c.cached)) ∧
    (∀ (c : HWClient) (os : List HTTPOutcome), (∀ o ∈ os, o.isFailure = true) →
      runFetches os c = c ∧
      handle_emeter (runFetches os c) = handle_emeter c ∧
      handle_rpc_status (runFetches os c).cached = handle_rpc_status c.cached) ∧
    (∀ s : AppState, pollStep .exn s = s ∧ get_status (pollStep .exn s) = get_status s) := by
  refine ⟨fun c o h => fetch_data_failure c h, fun c os h => ?_, fun s => ⟨rfl, rfl⟩⟩
  have h1 := runFetches_failures os c h
  exact ⟨h1, by rw [h1], by rw [h1]⟩

/-- C1 witness: a cache holding one good reading survives a timeout, a
500 response and a 200 response with an unparseable body, unchanged. -/
theorem c1_last_good_preserved_witness :
    runFetches [.exn, .resp 500 (some (.num 1)), .resp 200 none] ⟨some (.num 7)⟩ = ⟨some (.num 7)⟩ ∧
    handle_emeter (runFetches [.exn, .resp 500 (some (.num 1)), .resp 200 none] ⟨some (.num 7)⟩)
      = handle_emeter ⟨some (.num 7)⟩ ∧
    handle_rpc_status (runFetches [.exn, .resp 500 (some (.num 1)), .resp 200 none] ⟨some (.num 7)⟩).cached
      = handle_rpc_status (HWClient.mk (some (.num 7))).cached :=
  c1_last_good_preserved.2.1 ⟨some (.num 7)⟩ [.exn, .resp 500 (some (.num 1)), .resp 200 none] (by decide)

/-- C2 counterexample: a poll of src/app/main.py whose body is a JSON
object with a wrong-typed active_power_w raises partway through the
field-by-field update: the iteration fails (flag false), yet the
snapshot is neither untouched (ssid changed to the new value) nor fully
replaced (power fields keep the previous poll values) — a reader then
sees a mixture of two polls. -/
theorem c2_counterexample :
    (pollBody (.obj [("wifi_ssid", .str "evil"), ("active_power_w", .str "broken")])
      (pollStep (.ok 200 (.obj [("active_power_w", .num 690), ("wifi_ssid", .str "home")])) initState)).2 = false ∧
    (pollBody (.obj [("wifi_ssid", .str "evil"), ("active_power_w", .str "broken")])
      (pollStep (.ok 200 (.obj [("active_power_w", .num 690), ("wifi_ssid", .str "home")])) initState)).1.wifi_sta.ssid = .str "evil" ∧
    (pollStep (.ok 200 (.obj [("active_power_w", .num 690), ("wifi_ssid", .str "home")])) initState).wifi_sta.ssid = .str "home" ∧
    ((.str "evil" : JVal) ≠ .str "home") ∧
    (pollBody (.obj [("wifi_ssid", .str "evil"), ("active_power_w", .str "broken")])
      (pollStep (.ok 200 (.obj [("active_power_w", .num 690), ("wifi_ssid", .str "home")])) initState)).1.em0.total_act_power
      = (pollStep (.ok 200 (.obj [("active_power_w", .num 690), ("wifi_ssid", .str "home")])) initState).em0.total_act_power :=
  ⟨rfl, rfl, rfl, by decide, rfl⟩

/-- C2 amended: in src/app/main.py, a poll that raises before the body
(or whose body is not a JSON object) leaves the snapshot untouched, and
an object payload whose wifi_strength and active_power_w values are
numeric (or absent) is applied in full; in src/shelly_emulator.py every
fetch either leaves the cache untouched or replaces it atomically with
the new payload.  (An object payload with a wrong-typed field can leave
main.py's snapshot partially updated — the counterexample.) -/
theorem c2_all_or_nothing_qualified :
    (∀ s : AppState, pollStep .exn s = s) ∧
    (∀ (s : AppState) (st : ℕ) (body : JVal), body.isObj = false → pollStep (.ok st body) s = s) ∧
    (∀ (s : AppState) (kvs : List (String × JLeaf)) (w p : ℚ),
      (jget kvs "wifi_strength" (.num 100)).asNum = some w →
      (jget kvs "active_power_w" (.num 0)).asNum = some p →
      (pollBody (.obj kvs) s).2 = true) ∧
    (∀ (c : HWClient) (o : HTTPOutcome),
      (fetch_data o c).1 = c ∨ ∃ d, o = .resp 200 (some d) ∧ (fetch_data o c).1 = ⟨some d⟩) := by
  refine ⟨fun s => rfl, fun s st body h => ?_, fun s kvs w p hw hp => ?_, fun c o => ?_⟩
  · cases body with
    | leaf l => rfl
    | arr elems => rfl
    | obj kvs => simp [JVal.isObj] at h
  · simp only [pollStep, pollBody, hw, hp]
    by_cases htp : (jget kvs "active_power_w" (JVal.num 0)).truthy = true
    · rw [if_pos htp]
      rfl
    · rw [if_neg htp]
      rfl
  · cases o with
    | exn => exact Or.inl rfl
    | resp status body? =>
      by_cases hs : status = 200
      · subst hs
        cases body? with
        | none => exact Or.inl rfl
        | some d => exact Or.inr ⟨d, rfl, rfl⟩
      · exact Or.inl (by simp [fetch_data, hs])

/-- C2 witness: a numeric-only payload runs the poll body to completion. -/
theorem c2_all_or_nothing_qualified_witness :
    (pollBody (.obj [("active_power_w", .num 5)]) initState).2 = true :=
  c2_all_or_nothing_qualified.2.2.1 initState [("active_power_w", .num 5)] 100 5 rfl rfl

/-- C3 counterexample: before any fetch, responses contain nonzero
numeric fields: the empty emeter status of src/shelly_emulator.py has
a_freq = 50.0, and the initial /status document of src/app/main.py
reports voltage 230 — so not every numeric field is exactly 0. -/
theorem c3_counterexample :
    _get_empty_status.a_freq = 50 ∧ (50 : ℚ) ≠ 0 ∧
    (get_status initState).emeter0.voltage = .num 230 ∧ ((.num 230 : JVal) ≠ .num 0) :=
  ⟨rfl, by norm_num, rfl, by decide⟩

/-- C3 amended: before the first successful fetch every measured field
(power, current, apparent power, energy, gas) in every response is
exactly 0 and the full fixed schema is present with the source marker
"init"; but constant placeholder fields are nonzero: a_freq = 50.0 (and
a_pf = 0.98 in the Gen2 RPC document) in src/shelly_emulator.py, and
voltage 230 and rssi -50 in the initial state of src/app/main.py. -/
theorem c3_zero_measured_fields :
    (_get_empty_status.a_act_power = 0 ∧ _get_empty_status.a_current = 0 ∧
     _get_empty_status.a_voltage = 0 ∧ _get_empty_status.a_aprt_power = 0 ∧
     _get_empty_status.b_act_power = 0 ∧ _get_empty_status.b_current = 0 ∧
     _get_empty_status.c_act_power = 0 ∧ _get_empty_status.c_current = 0 ∧
     _get_empty_status.n_current = 0 ∧ _get_empty_status.total_act_power = 0 ∧
     _get_empty_status.total_current = 0 ∧ _get_empty_status.total_aprt_power = 0) ∧
    (_get_empty_status.source = "init" ∧ _get_empty_status.a_freq = 50 ∧ _get_empty_status.a_pf = 0) ∧
    (handle_rpc_status none = some (mkGen2Status 0 0 0) ∧
     (mkGen2Status 0 0 0).a_act_power = 0 ∧ (mkGen2Status 0 0 0).a_current = 0 ∧
     (mkGen2Status 0 0 0).a_voltage = 0 ∧ (mkGen2Status 0 0 0).a_aprt_power = 0 ∧
     (mkGen2Status 0 0 0).total_act_power = 0 ∧ (mkGen2Status 0 0 0).total_current = 0 ∧
     (mkGen2Status 0 0 0).a_pf = 49/50 ∧ (mkGen2Status 0 0 0).a_freq = 50) ∧
    ((get_status initState).emeter0.power = .num 0 ∧ (get_status initState).emeter0.current = .num 0 ∧
     (get_status initState).emeter0.total = .num 0 ∧ (get_status initState).emeter0.returned = .num 0 ∧
     (get_status initState).emeter1.power = .num 0 ∧ (get_status initState).emeter1.current = .num 0 ∧
     (get_status initState).emeter2.power = .num 0 ∧ (get_status initState).emeter2.current = .num 0 ∧
     (get_status initState).total_power = .num 0 ∧ (get_status initState).gas.total_m3 = .num 0 ∧
     (get_status initState).gas.timestamp = .num 0) ∧
    ((get_status initState).emeter0.voltage = .num 230 ∧
     (get_status initState).wifi_sta.rssi = .num (-50) ∧
     rpc_Shelly_GetStatus initState = ⟨initState.wifi_sta, initState.em0, initState.gas0⟩) := by
  refine ⟨⟨rfl, rfl, rfl, rfl, rfl, rfl, rfl, rfl, rfl, rfl, rfl, rfl⟩,
    ⟨rfl, rfl, rfl⟩, ⟨rfl, ?_, ?_, ?_, ?_, ?_, ?_, rfl, rfl⟩,
    ⟨rfl, rfl, rfl, rfl, rfl, rfl, rfl, rfl, rfl, rfl, rfl⟩, ⟨rfl, rfl, rfl⟩⟩ <;>
  simp [mkGen2Status, roundTo_zero]

/-- C5 counterexample: src/shelly_emulator.py never derives current from
power: for a payload with power 460 and no upstream current, the
converted status has a_current = 0 although the (default) voltage is 230
and power/voltage = 2; the claimed derivation current = power/voltage
does not hold there. -/
theorem c5_counterexample :
    Option.map EMStatus.a_current (convert_hw_to_shelly (some (.obj [("active_power_w", .num 460)]))) = some 0 ∧
    Option.map EMStatus.a_voltage (convert_hw_to_shelly (some (.obj [("active_power_w", .num 460)]))) = some 230 ∧
    (230 : ℚ) ≠ 0 ∧ (460 : ℚ) / 230 = 2 ∧ (0 : ℚ) ≠ 2 := by
  refine ⟨?_, ?_, by norm_num, by norm_num, by norm_num⟩
  · have h : Option.map EMStatus.a_current (convert_hw_to_shelly (some (.obj [("active_power_w", .num 460)])))
        = some (roundTo 3 0) := rfl
    rw [h, roundTo_zero]
  · have h : Option.map EMStatus.a_voltage (convert_hw_to_shelly (some (.obj [("active_power_w", .num 460)])))
        = some (roundTo 2 230) := rfl
    have e : roundTo 2 (230 : ℚ) = 230 := by exact_mod_cast roundTo_intCast 2 230
    rw [h, e]

/-- C5 amended: in the poller of src/app/main.py the derived currents
equal the corresponding power divided by the fixed voltage 230, which is
never zero, so the derivation never divides by zero and always yields a
finite rational; in src/shelly_emulator.py a current that is not
upstream-supplied is reported as 0, never derived from power. -/
theorem c5_current_derivation :
    (∀ (q : ℚ) (s : AppState),
      ((pollBody (.obj [("active_power_w", .num q)]) s).1.em0.a_current = .num (q / 3 / 230) ∧
       (pollBody (.obj [("active_power_w", .num q)]) s).1.em0.b_current = .num (q / 3 / 230) ∧
       (pollBody (.obj [("active_power_w", .num q)]) s).1.em0.c_current = .num (q / 3 / 230) ∧
       (pollBody (.obj [("active_power_w", .num q)]) s).1.em0.total_current = .num (q / 230)) ∧
      (230 : ℚ) ≠ 0) ∧
    (∀ (q v : ℚ),
      Option.map EMStatus.a_current (convert_hw_to_shelly (some (.obj
        [("active_power_w", .num q), ("active_voltage_v", .num v)]))) = some 0) := by
  constructor
  · intro q s
    refine ⟨?_, by norm_num⟩
    by_cases hq : q = 0
    · subst hq
      simp [pollBody, jget, JVal.truthy, JLeaf.truthy, JVal.asNum, JLeaf.asNum, JVal.num, JVal.str]
    · simp [pollBody, jget, JVal.truthy, JLeaf.truthy, JVal.asNum, JLeaf.asNum, JVal.num, JVal.str, hq]
  · intro q v
    have h : Option.map EMStatus.a_current (convert_hw_to_shelly (some (.obj
        [("active_power_w", .num q), ("active_voltage_v", .num v)]))) = some (roundTo 3 0) := rfl
    rw [h, roundTo_zero]

/-- C7 counterexample: the poller of src/app/main.py computes
rssi = -30 - int((100 - pct) * 0.6) with truncation, not rounding: at
pct = 99 the code yields -30, while the claimed formula
-30 - round((100 - pct) * 0.6) yields -31. -/
theorem c7_counterexample :
    (pollStep (.ok 200 (.obj [("wifi_strength", .num 99)])) initState).wifi_sta.rssi = .num (-30) ∧
    ((-30 : ℤ) - roundHalfEven ((100 - 99) * (3/5)) = -31) ∧
    ((.num (-30) : JVal) ≠ .num (-31)) := by
  refine ⟨?_, ?_, by decide⟩
  · have h : (pollStep (.ok 200 (.obj [("wifi_strength", .num 99)])) initState).wifi_sta.rssi
        = .num (((-30 : ℤ) - ratTrunc ((100 - 99) * (3/5)) : ℤ) : ℚ) := rfl
    have e : ratTrunc ((100 - 99) * (3/5) : ℚ) = 0 := by
      rw [ratTrunc_of_nonneg (by norm_num)]
      rw [Int.floor_eq_iff]
      norm_num
    rw [h, e]
    norm_num
  · have hf : ⌊((100 - 99) * (3/5) : ℚ)⌋ = 0 := by
      rw [Int.floor_eq_iff]
      norm_num
    rw [roundHalfEven_of_floor hf]
    norm_num

/-- C7 amended: for every percentage 0 ≤ pct ≤ 100 the synthesized RSSI
equals -30 - trunc((100 - pct) * 0.6) (int() truncation, which differs
from rounding when the fractional part is at least one half), the value
never exceeds -30 dBm, and the endpoints behave as claimed:
pct = 100 gives -30 and pct = 0 gives -90. -/
theorem c7_rssi_truncation :
    (∀ pct : ℕ, pct ≤ 100 →
      (pollStep (.ok 200 (.obj [("wifi_strength", .num (pct : ℚ))])) initState).wifi_sta.rssi
        = .num (((-30 : ℤ) - ratTrunc ((100 - (pct : ℚ)) * (3/5)) : ℤ) : ℚ) ∧
      ((-30 : ℤ) - ratTrunc ((100 - (pct : ℚ)) * (3/5))) ≤ -30) ∧
    (pollStep (.ok 200 (.obj [("wifi_strength", .num 100)])) initState).wifi_sta.rssi = .num (-30) ∧
    (pollStep (.ok 200 (.obj [("wifi_strength", .num 0)])) initState).wifi_sta.rssi = .num (-90) := by
  refine ⟨fun pct hp => ⟨rfl, ?_⟩, ?_, ?_⟩
  · have hc : (pct : ℚ) ≤ 100 := by exact_mod_cast hp
    have hq : (0 : ℚ) ≤ (100 - (pct : ℚ)) * (3/5) := by nlinarith
    have := ratTrunc_nonneg hq
    omega
  · have h : (pollStep (.ok 200 (.obj [("wifi_strength", .num 100)])) initState).wifi_sta.rssi
        = .num (((-30 : ℤ) - ratTrunc ((100 - (100 : ℚ)) * (3/5)) : ℤ) : ℚ) := rfl
    have e0 : ((100 : ℚ) - 100) * (3/5) = 0 := by norm_num
    have e : ratTrunc (((100 : ℚ) - 100) * (3/5)) = 0 := by
      rw [e0, ratTrunc_of_nonneg le_rfl, Int.floor_zero]
    rw [h, e]
    norm_num
  · have h : (pollStep (.ok 200 (.obj [("wifi_strength", .num 0)])) initState).wifi_sta.rssi
        = .num (((-30 : ℤ) - ratTrunc ((100 - (0 : ℚ)) * (3/5)) : ℤ) : ℚ) := rfl
    have e : ratTrunc (((100 : ℚ) - 0) * (3/5)) = 60 := by
      rw [ratTrunc_of_nonneg (by norm_num)]
      rw [Int.floor_eq_iff]
      norm_num
    rw [h, e]
    norm_num

/-- C7 witness: the amended formula instantiated at pct = 99. -/
theorem c7_rssi_truncation_witness :
    (pollStep (.ok 200 (.obj [("wifi_strength", .num ((99 : ℕ) : ℚ))])) initState).wifi_sta.rssi
      = .num (((-30 : ℤ) - ratTrunc ((100 - ((99 : ℕ) : ℚ)) * (3/5)) : ℤ) : ℚ) ∧
    ((-30 : ℤ) - ratTrunc ((100 - ((99 : ℕ) : ℚ)) * (3/5))) ≤ -30 :=
  c7_rssi_truncation.1 99 (by norm_num)

/-- C4: for every payload whose per-phase powers are derived by equal
split (the upstream reports only a total, as in the poller of
src/app/main.py), each of the three per-phase power values equals
total/3, the stored total equals the reported total, and the three
per-phase values sum exactly to the reported total_active_power_w. -/
theorem c4_equal_split (q : ℚ) (s : AppState) :
    ((pollBody (.obj [("active_power_w", .num q)]) s).1.em0.a_act_power = .num (q / 3) ∧
     (pollBody (.obj [("active_power_w", .num q)]) s).1.em0.b_act_power = .num (q / 3) ∧
     (pollBody (.obj [("active_power_w", .num q)]) s).1.em0.c_act_power = .num (q / 3) ∧
     (pollBody (.obj [("active_power_w", .num q)]) s).1.em0.total_act_power = .num q) ∧
    q / 3 + q / 3 + q / 3 = q := by
  constructor
  · by_cases hq : q = 0
    · subst hq
      simp [pollBody, jget, JVal.truthy, JLeaf.truthy, JVal.asNum, JLeaf.asNum, JVal.num, JVal.str]
    · simp [pollBody, jget, JVal.truthy, JLeaf.truthy, JVal.asNum, JLeaf.asNum, JVal.num, JVal.str, hq]
  · ring

/-- C6: in the Gen2 RPC status document of src/shelly_emulator.py, power
values are rounded to 2 decimal places and current values to 3 decimal
places (roundTo models Python round at that many digits), apparent power
is active power times 1.02 before rounding, and for
active_power_w = 1234.567 the document shows a_act_power = 1234.57 and
a_aprt_power = 1259.26. -/
theorem c6_gen2_rounding :
    (∀ (p v c : ℚ),
      Option.map Gen2Status.a_act_power (handle_rpc_status (some (.obj
        [("active_power_w", .num p), ("active_voltage_v", .num v), ("active_current_a", .num c)])))
        = some (roundTo 2 p) ∧
      Option.map Gen2Status.a_current (handle_rpc_status (some (.obj
        [("active_power_w", .num p), ("active_voltage_v", .num v), ("active_current_a", .num c)])))
        = some (roundTo 3 c) ∧
      Option.map Gen2Status.a_aprt_power (handle_rpc_status (some (.obj
        [("active_power_w", .num p), ("active_voltage_v", .num v), ("active_current_a", .num c)])))
        = some (roundTo 2 (p * (51/50)))) ∧
    Option.map Gen2Status.a_act_power (handle_rpc_status (some (.obj
      [("active_power_w", .num (1234567/1000))]))) = some (123457/100) ∧
    Option.map Gen2Status.a_aprt_power (handle_rpc_status (some (.obj
      [("active_power_w", .num (1234567/1000))]))) = some (125926/100) := by
  have e1 : roundTo 2 (1234567/1000 : ℚ) = 123457/100 := by
    have hf : ⌊(1234567/1000 * 10 ^ 2 : ℚ)⌋ = 123456 := by
      rw [Int.floor_eq_iff]
      norm_num
    rw [roundTo, roundHalfEven_of_floor hf]
    norm_num
  have e2 : roundTo 2 ((1234567/1000) * (51/50) : ℚ) = 125926/100 := by
    have hf : ⌊((1234567/1000) * (51/50) * 10 ^ 2 : ℚ)⌋ = 125925 := by
      rw [Int.floor_eq_iff]
      norm_num
    rw [roundTo, roundHalfEven_of_floor hf]
    norm_num
  refine ⟨fun p v c => ⟨rfl, rfl, rfl⟩, ?_, ?_⟩
  · have h : Option.map Gen2Status.a_act_power (handle_rpc_status (some (.obj
      [("active_power_w", .num (1234567/1000))]))) = some (roundTo 2 (1234567/1000)) := rfl
    rw [h, e1]
  · have h : Option.map Gen2Status.a_aprt_power (handle_rpc_status (some (.obj
      [("active_power_w", .num (1234567/1000))]))) = some (roundTo 2 ((1234567/1000) * (51/50))) := rfl
    rw [h, e2]

/-- C8: the /shelly and /settings handlers of src/shelly_emulator.py
depend only on static device identity, never on the cached snapshot, so
repeated GETs return identical documents regardless of polling history. -/
theorem c8_static_docs (c₁ c₂ : HWClient) :
    handle_shelly c₁ = handle_shelly c₂ ∧ handle_settings c₁ = handle_settings c₂ :=
  ⟨rfl, rfl⟩

/-- C9: neither poll loop has a terminal state: for every outcome of an
iteration (success, fetch failure of any kind, or an unexpected
exception) the loop sleeps a positive time and continues to the next
fetch attempt. -/
theorem c9_loop_never_stops :
    (∀ (e : IterEvent) (c : HWClient),
      ∃ c' t, poll_homewizard_step e c = .next c' t ∧ 0 < t) ∧
    (∀ (r : FetchResult) (s : AppState),
      ∃ s' t, poller_iteration r s = .next s' t ∧ 0 < t) := by
  constructor
  · intro e c
    cases e with
    | normal o => exact ⟨(fetch_data o c).1, 1, rfl, by norm_num⟩
    | unexpectedExn => exact ⟨c, 5, rfl, by norm_num⟩
  · intro r s
    exact ⟨pollStep r s, POLL_INTERVAL, rfl, by norm_num [POLL_INTERVAL]⟩

/-- C10: every Gen2 RPC status document produced by handle_rpc_status
(for any cached payload or none) keeps phases B and C and the neutral
current at exactly 0, and its totals equal the phase-A values. -/
theorem c10_phase_a_only (hw? : Option JVal) (doc : Gen2Status)
    (h : handle_rpc_status hw? = some doc) :
    doc.b_current = 0 ∧ doc.b_voltage = 0 ∧ doc.b_act_power = 0 ∧ doc.b_aprt_power = 0 ∧
    doc.c_current = 0 ∧ doc.c_voltage = 0 ∧ doc.c_act_power = 0 ∧ doc.c_aprt_power = 0 ∧
    doc.n_current = 0 ∧ doc.total_act_power = doc.a_act_power ∧
    doc.total_aprt_power = doc.a_aprt_power ∧ doc.total_current = doc.a_current := by
  rw [handle_rpc_status, Option.map_eq_some'] at h
  obtain ⟨t, _, ht⟩ := h
  subst ht
  simp [mkGen2Status]

/-- C10 witness: the empty-cache document, built by the theorem applied
to the concrete input none. -/
theorem c10_phase_a_only_witness :
    (mkGen2Status 0 0 0).b_current = 0 ∧ (mkGen2Status 0 0 0).b_voltage = 0 ∧
    (mkGen2Status 0 0 0).b_act_power = 0 ∧ (mkGen2Status 0 0 0).b_aprt_power = 0 ∧
    (mkGen2Status 0 0 0).c_current = 0 ∧ (mkGen2Status 0 0 0).c_voltage = 0 ∧
    (mkGen2Status 0 0 0).c_act_power = 0 ∧ (mkGen2Status 0 0 0).c_aprt_power = 0 ∧
    (mkGen2Status 0 0 0).n_current = 0 ∧
    (mkGen2Status 0 0 0).total_act_power = (mkGen2Status 0 0 0).a_act_power ∧
    (mkGen2Status 0 0 0).total_aprt_power = (mkGen2Status 0 0 0).a_aprt_power ∧
    (mkGen2Status 0 0 0).total_current = (mkGen2Status 0 0 0).a_current :=
  c10_phase_a_only none (mkGen2Status 0 0 0) rfl

end HWShelly
